import Mathlib

/-!
Verification development for the DirectX 12 backend of a GPU hardware
abstraction layer.  The definitions below are a shallow embedding of
`src/wgpu-hal/src/dx12/mod.rs` and `src/wgpu-hal/src/dx12/view.rs`:
machine integers (`u32`, `u64`, `usize`) are modelled as `Nat` with
explicit modular arithmetic where overflow matters, native handles as
opaque `Nat` identifiers, and Rust panics as an explicit `panicked`
outcome.  Components whose implementation files are not part of the
provided sources (the root-binding state machine methods of
`command.rs` and the pipeline-layout builder of `device.rs`) are
modelled from the specification and marked as such in their doc
comments.
-/

namespace Dx12

/-- Maximum value of a Rust `u32`; `!0u32` in the source. -/
def U32_MAX : Nat := 4294967295

/-- Modulus of Rust `usize` arithmetic (64-bit target). -/
def USIZE_MOD : Nat := 2 ^ 64

/-- Wrapping increment, the release-mode semantics of `usize += 1`. -/
def usizeAdd1 (n : Nat) : Nat := (n + 1) % USIZE_MOD

/-- Wrapping decrement, the release-mode semantics of `usize -= 1`. -/
def usizeSub1 (n : Nat) : Nat := (n + (USIZE_MOD - 1)) % USIZE_MOD

/-- Embeds `struct WinError(u32)` from `mod.rs`. -/
structure WinError where
  code : Nat
deriving DecidableEq, Repr

/-- Embeds `const ERR_UNEXPECTED: WinError = WinError(0x8000FFFF)`. -/
def ERR_UNEXPECTED : WinError := ⟨0x8000FFFF⟩

/-- Embeds `const ERR_NOTIMPL: WinError = WinError(0x80004001)`. -/
def ERR_NOTIMPL : WinError := ⟨0x80004001⟩

/-- Embeds `const ERR_OUTOFMEMORY: WinError = WinError(0x8007000E)`. -/
def ERR_OUTOFMEMORY : WinError := ⟨0x8007000E⟩

/-- Embeds `const ERR_INVALIDARG: WinError = WinError(0x80070057)`. -/
def ERR_INVALIDARG : WinError := ⟨0x80070057⟩

/-- Embeds `crate::DeviceError` as used by the error mapping. -/
inductive DeviceError
  | OutOfMemory
  | Lost
deriving DecidableEq, Repr

/-- Embeds `WinError::map_win_error_to_device_error` from `mod.rs`. -/
def map_win_error_to_device_error (hr_code : Nat) : DeviceError :=
  if WinError.mk hr_code = ERR_OUTOFMEMORY then
    DeviceError.OutOfMemory
  else
    DeviceError.Lost

/-- Embeds `const MAX_ROOT_ELEMENTS: usize = 64` from `mod.rs`. -/
def MAX_ROOT_ELEMENTS : Nat := 64

/-- Embeds `wgt::TextureViewDimension`. -/
inductive TextureViewDimension
  | D1
  | D2
  | D2Array
  | Cube
  | CubeArray
  | D3
deriving DecidableEq, Repr

/-- Embeds `wgt::TextureDimension`. -/
inductive TextureDimension
  | D1
  | D2
  | D3
deriving DecidableEq, Repr

/-- Embeds `wgt::Extent3d`. -/
structure Extent3d where
  width : Nat
  height : Nat
  depth_or_array_layers : Nat
deriving DecidableEq, Repr

/-- Modelled from the spec: the format-conversion tables live in
`conv.rs`, which is an out-of-scope external collaborator; the native
format is modelled as an opaque tag recording whether the no-depth
variant was requested, wrapping the logical format code. -/
inductive NativeFormat
  | withDepth (logical : Nat)
  | noDepth (logical : Nat)
deriving DecidableEq, Repr

/-- Modelled from the spec: `conv::map_texture_format`. -/
def map_texture_format (f : Nat) : NativeFormat := NativeFormat.withDepth f

/-- Modelled from the spec: `conv::map_texture_format_nodepth`. -/
def map_texture_format_nodepth (f : Nat) : NativeFormat := NativeFormat.noDepth f

/-- Embeds `struct Texture` from `mod.rs`; the native resource is an
opaque identifier, the format the logical `wgt::TextureFormat` code. -/
structure Texture where
  resource : Nat
  format : Nat
  dimension : TextureDimension
  size : Extent3d
  mip_level_count : Nat
  sample_count : Nat
deriving DecidableEq, Repr

/-- Embeds `wgt::ImageSubresourceRange` as used by `to_internal`:
`Option` counts stand for `Option<NonZeroU32>`. -/
structure TextureSubresourceRange where
  base_mip_level : Nat
  mip_level_count : Option Nat
  base_array_layer : Nat
  array_layer_count : Option Nat
deriving DecidableEq, Repr

/-- Embeds the fields of `crate::TextureViewDescriptor` read by
`to_internal` (dimension, format, subresource range). -/
structure TextureViewDescriptor where
  dimension : TextureViewDimension
  format : Nat
  range : TextureSubresourceRange
deriving DecidableEq, Repr

/-- Embeds `struct ViewDescriptor` from `view.rs`. -/
structure ViewDescriptor where
  dimension : TextureViewDimension
  format : NativeFormat
  format_nodepth : NativeFormat
  multisampled : Bool
  array_layer_base : Nat
  array_layer_count : Nat
  mip_level_base : Nat
  mip_level_count : Nat
deriving DecidableEq, Repr

/-- Embeds `TextureViewDescriptor::to_internal` from `view.rs`:
an absent (`None`) mip or array count becomes the `!0` sentinel. -/
def TextureViewDescriptor.to_internal (s : TextureViewDescriptor)
    (texture : Texture) : ViewDescriptor :=
  { dimension := s.dimension
    format := map_texture_format s.format
    format_nodepth := map_texture_format_nodepth s.format
    multisampled := texture.sample_count > 1
    mip_level_base := s.range.base_mip_level
    mip_level_count :=
      match s.range.mip_level_count with
      | some count => count
      | none => U32_MAX
    array_layer_base := s.range.base_array_layer
    array_layer_count :=
      match s.range.array_layer_count with
      | some count => count
      | none => U32_MAX }

/-- Embeds `D3D12_DEFAULT_SHADER_4_COMPONENT_MAPPING` from `view.rs`. -/
def D3D12_DEFAULT_SHADER_4_COMPONENT_MAPPING : Nat := 0x1688

/-- Panic messages of `view.rs`; an inductive tag per distinct
`panic!` call site, carrying its message verbatim in the name. -/
inductive PanicMsg
  | unableToViewTextureAsCubeUAV
  | unableToViewTextureAsCubeRTV
  | unableToViewTextureAsCubeOr3dRTV
deriving DecidableEq, Repr

/-- Outcome of a view-construction function: either the built native
descriptor, or a Rust panic (the source functions return the bare
descriptor type and panic on the rejected dimensions — they have no
error channel). -/
inductive BuildResult (α : Type)
  | ok (value : α)
  | panicked (msg : PanicMsg)
deriving DecidableEq, Repr

/-- Embeds `D3D12_SRV_DIMENSION` values assigned in `to_srv`. -/
inductive SrvDim
  | texture1D
  | texture2D
  | texture2DArray
  | texture2DMS
  | texture2DMSArray
  | texture3D
  | textureCube
  | textureCubeArray
deriving DecidableEq, Repr

/-- Embeds the anonymous union payload of
`D3D12_SHADER_RESOURCE_VIEW_DESC`; the constant-zero float field
`ResourceMinLODClamp` is omitted (always `0.0` in the source). -/
inductive SrvData
  | tex1D (mostDetailedMip mipLevels : Nat)
  | tex2DMS
  | tex2D (mostDetailedMip mipLevels planeSlice : Nat)
  | tex2DMSArray (firstArraySlice arraySize : Nat)
  | tex2DArray (mostDetailedMip mipLevels firstArraySlice arraySize planeSlice : Nat)
  | tex3D (mostDetailedMip mipLevels : Nat)
  | texCube (mostDetailedMip mipLevels : Nat)
  | texCubeArray (mostDetailedMip mipLevels first2DArrayFace numCubes : Nat)
deriving DecidableEq, Repr

/-- Embeds `D3D12_SHADER_RESOURCE_VIEW_DESC`. -/
structure SrvDesc where
  Format : NativeFormat
  ViewDimension : SrvDim
  Shader4ComponentMapping : Nat
  Anonymous : SrvData
deriving DecidableEq, Repr

/-- Embeds `ViewDescriptor::to_srv` from `view.rs`.  The Rust `match`
arms with guards are de-sugared into nested conditionals, preserving
arm order. -/
def ViewDescriptor.to_srv (v : ViewDescriptor) : SrvDesc :=
  let base : SrvData → SrvDim → SrvDesc := fun data dim =>
    { Format := v.format_nodepth
      ViewDimension := dim
      Shader4ComponentMapping := D3D12_DEFAULT_SHADER_4_COMPONENT_MAPPING
      Anonymous := data }
  match v.dimension with
  | TextureViewDimension.D1 =>
      base (SrvData.tex1D v.mip_level_base v.mip_level_count) SrvDim.texture1D
  | TextureViewDimension.D2 =>
      if v.multisampled = true ∧ v.array_layer_base = 0 then
        base SrvData.tex2DMS SrvDim.texture2DMS
      else if v.array_layer_base = 0 then
        base (SrvData.tex2D v.mip_level_base v.mip_level_count 0) SrvDim.texture2D
      else if v.multisampled = true then
        base (SrvData.tex2DMSArray v.array_layer_base v.array_layer_count)
          SrvDim.texture2DMSArray
      else
        base (SrvData.tex2DArray v.mip_level_base v.mip_level_count
          v.array_layer_base v.array_layer_count 0) SrvDim.texture2DArray
  | TextureViewDimension.D2Array =>
      if v.multisampled = true then
        base (SrvData.tex2DMSArray v.array_layer_base v.array_layer_count)
          SrvDim.texture2DMSArray
      else
        base (SrvData.tex2DArray v.mip_level_base v.mip_level_count
          v.array_layer_base v.array_layer_count 0) SrvDim.texture2DArray
  | TextureViewDimension.D3 =>
      base (SrvData.tex3D v.mip_level_base v.mip_level_count) SrvDim.texture3D
  | TextureViewDimension.Cube =>
      if v.array_layer_base = 0 then
        base (SrvData.texCube v.mip_level_base v.mip_level_count) SrvDim.textureCube
      else
        base (SrvData.texCubeArray v.mip_level_base v.mip_level_count
          v.array_layer_base
          (if v.array_layer_count = U32_MAX then U32_MAX
           else v.array_layer_count / 6)) SrvDim.textureCubeArray
  | TextureViewDimension.CubeArray =>
      base (SrvData.texCubeArray v.mip_level_base v.mip_level_count
        v.array_layer_base
        (if v.array_layer_count = U32_MAX then U32_MAX
         else v.array_layer_count / 6)) SrvDim.textureCubeArray

/-- Embeds `D3D12_UAV_DIMENSION` values assigned in `to_uav`. -/
inductive UavDim
  | texture1D
  | texture2D
  | texture2DArray
  | texture3D
deriving DecidableEq, Repr

/-- Embeds the anonymous union payload of
`D3D12_UNORDERED_ACCESS_VIEW_DESC`. -/
inductive UavData
  | tex1D (mipSlice : Nat)
  | tex2D (mipSlice planeSlice : Nat)
  | tex2DArray (mipSlice firstArraySlice arraySize planeSlice : Nat)
  | tex3D (mipSlice firstWSlice wSize : Nat)
deriving DecidableEq, Repr

/-- Embeds `D3D12_UNORDERED_ACCESS_VIEW_DESC`. -/
structure UavDesc where
  Format : NativeFormat
  ViewDimension : UavDim
  Anonymous : UavData
deriving DecidableEq, Repr

/-- Embeds `ViewDescriptor::to_uav` from `view.rs`; the
`panic!("Unable to view texture as cube UAV")` arm becomes the
`panicked` outcome. -/
def ViewDescriptor.to_uav (v : ViewDescriptor) : BuildResult UavDesc :=
  match v.dimension with
  | TextureViewDimension.D1 =>
      BuildResult.ok { Format := v.format_nodepth
                       ViewDimension := UavDim.texture1D
                       Anonymous := UavData.tex1D v.mip_level_base }
  | TextureViewDimension.D2 =>
      if v.array_layer_base = 0 then
        BuildResult.ok { Format := v.format_nodepth
                         ViewDimension := UavDim.texture2D
                         Anonymous := UavData.tex2D v.mip_level_base 0 }
      else
        BuildResult.ok { Format := v.format_nodepth
                         ViewDimension := UavDim.texture2DArray
                         Anonymous := UavData.tex2DArray v.mip_level_base
                           v.array_layer_base v.array_layer_count 0 }
  | TextureViewDimension.D2Array =>
      BuildResult.ok { Format := v.format_nodepth
                       ViewDimension := UavDim.texture2DArray
                       Anonymous := UavData.tex2DArray v.mip_level_base
                         v.array_layer_base v.array_layer_count 0 }
  | TextureViewDimension.D3 =>
      BuildResult.ok { Format := v.format_nodepth
                       ViewDimension := UavDim.texture3D
                       Anonymous := UavData.tex3D v.mip_level_base
                         v.array_layer_base v.array_layer_count }
  | TextureViewDimension.Cube =>
      BuildResult.panicked PanicMsg.unableToViewTextureAsCubeUAV
  | TextureViewDimension.CubeArray =>
      BuildResult.panicked PanicMsg.unableToViewTextureAsCubeUAV

/-- Embeds `D3D12_RTV_DIMENSION` values assigned in `to_rtv`. -/
inductive RtvDim
  | texture1D
  | texture2D
  | texture2DArray
  | texture2DMS
  | texture2DMSArray
  | texture3D
deriving DecidableEq, Repr

/-- Embeds the anonymous union payload of
`D3D12_RENDER_TARGET_VIEW_DESC`. -/
inductive RtvData
  | tex1D (mipSlice : Nat)
  | tex2DMS
  | tex2D (mipSlice planeSlice : Nat)
  | tex2DMSArray (firstArraySlice arraySize : Nat)
  | tex2DArray (mipSlice firstArraySlice arraySize planeSlice : Nat)
  | tex3D (mipSlice firstWSlice wSize : Nat)
deriving DecidableEq, Repr

/-- Embeds `D3D12_RENDER_TARGET_VIEW_DESC`. -/
structure RtvDesc where
  Format : NativeFormat
  ViewDimension : RtvDim
  Anonymous : RtvData
deriving DecidableEq, Repr

/-- Embeds `ViewDescriptor::to_rtv` from `view.rs`; the
`panic!("Unable to view texture as cube RTV")` arm becomes the
`panicked` outcome. -/
def ViewDescriptor.to_rtv (v : ViewDescriptor) : BuildResult RtvDesc :=
  match v.dimension with
  | TextureViewDimension.D1 =>
      BuildResult.ok { Format := v.format
                       ViewDimension := RtvDim.texture1D
                       Anonymous := RtvData.tex1D v.mip_level_base }
  | TextureViewDimension.D2 =>
      if v.multisampled = true ∧ v.array_layer_base = 0 then
        BuildResult.ok { Format := v.format
                         ViewDimension := RtvDim.texture2DMS
                         Anonymous := RtvData.tex2DMS }
      else if v.array_layer_base = 0 then
        BuildResult.ok { Format := v.format
                         ViewDimension := RtvDim.texture2D
                         Anonymous := RtvData.tex2D v.mip_level_base 0 }
      else if v.multisampled = true then
        BuildResult.ok { Format := v.format
                         ViewDimension := RtvDim.texture2DMSArray
                         Anonymous := RtvData.tex2DMSArray v.array_layer_base
                           v.array_layer_count }
      else
        BuildResult.ok { Format := v.format
                         ViewDimension := RtvDim.texture2DArray
                         Anonymous := RtvData.tex2DArray v.mip_level_base
                           v.array_layer_base v.array_layer_count 0 }
  | TextureViewDimension.D2Array =>
      if v.multisampled = true then
        BuildResult.ok { Format := v.format
                         ViewDimension := RtvDim.texture2DMSArray
                         Anonymous := RtvData.tex2DMSArray v.array_layer_base
                           v.array_layer_count }
      else
        BuildResult.ok { Format := v.format
                         ViewDimension := RtvDim.texture2DArray
                         Anonymous := RtvData.tex2DArray v.mip_level_base
                           v.array_layer_base v.array_layer_count 0 }
  | TextureViewDimension.D3 =>
      BuildResult.ok { Format := v.format
                       ViewDimension := RtvDim.texture3D
                       Anonymous := RtvData.tex3D v.mip_level_base
                         v.array_layer_base v.array_layer_count }
  | TextureViewDimension.Cube =>
      BuildResult.panicked PanicMsg.unableToViewTextureAsCubeRTV
  | TextureViewDimension.CubeArray =>
      BuildResult.panicked PanicMsg.unableToViewTextureAsCubeRTV

/-- Embeds the depth/stencil subset of `crate::FormatAspects` consumed
by `to_dsv` (`ro_aspects`). -/
structure FormatAspects where
  depth : Bool
  stencil : Bool
deriving DecidableEq, Repr

/-- Embeds `D3D12_DSV_FLAG_READ_ONLY_DEPTH`. -/
def DSV_FLAG_READ_ONLY_DEPTH : Nat := 1

/-- Embeds `D3D12_DSV_FLAG_READ_ONLY_STENCIL`. -/
def DSV_FLAG_READ_ONLY_STENCIL : Nat := 2

/-- Embeds the `Flags` computation of `to_dsv`: start from
`D3D12_DSV_FLAG_NONE` and or in a read-only flag per aspect. -/
def dsv_flags (ro_aspects : FormatAspects) : Nat :=
  (if ro_aspects.depth then DSV_FLAG_READ_ONLY_DEPTH else 0) |||
  (if ro_aspects.stencil then DSV_FLAG_READ_ONLY_STENCIL else 0)

/-- Embeds `D3D12_DSV_DIMENSION` values assigned in `to_dsv`. -/
inductive DsvDim
  | texture1D
  | texture2D
  | texture2DArray
  | texture2DMS
  | texture2DMSArray
deriving DecidableEq, Repr

/-- Embeds the anonymous union payload of
`D3D12_DEPTH_STENCIL_VIEW_DESC`. -/
inductive DsvData
  | tex1D (mipSlice : Nat)
  | tex2DMS
  | tex2D (mipSlice : Nat)
  | tex2DMSArray (firstArraySlice arraySize : Nat)
  | tex2DArray (mipSlice firstArraySlice arraySize : Nat)
deriving DecidableEq, Repr

/-- Embeds `D3D12_DEPTH_STENCIL_VIEW_DESC`. -/
structure DsvDesc where
  Format : NativeFormat
  ViewDimension : DsvDim
  Flags : Nat
  Anonymous : DsvData
deriving DecidableEq, Repr

/-- Embeds `ViewDescriptor::to_dsv` from `view.rs`; the
`panic!("Unable to view texture as cube or 3D RTV")` arm (the message
says RTV in the source) becomes the `panicked` outcome. -/
def ViewDescriptor.to_dsv (v : ViewDescriptor)
    (ro_aspects : FormatAspects) : BuildResult DsvDesc :=
  let mk : DsvData → DsvDim → DsvDesc := fun data dim =>
    { Format := v.format
      ViewDimension := dim
      Flags := dsv_flags ro_aspects
      Anonymous := data }
  match v.dimension with
  | TextureViewDimension.D1 =>
      BuildResult.ok (mk (DsvData.tex1D v.mip_level_base) DsvDim.texture1D)
  | TextureViewDimension.D2 =>
      if v.multisampled = true ∧ v.array_layer_base = 0 then
        BuildResult.ok (mk DsvData.tex2DMS DsvDim.texture2DMS)
      else if v.array_layer_base = 0 then
        BuildResult.ok (mk (DsvData.tex2D v.mip_level_base) DsvDim.texture2D)
      else if v.multisampled = true then
        BuildResult.ok (mk (DsvData.tex2DMSArray v.array_layer_base
          v.array_layer_count) DsvDim.texture2DMSArray)
      else
        BuildResult.ok (mk (DsvData.tex2DArray v.mip_level_base
          v.array_layer_base v.array_layer_count) DsvDim.texture2DArray)
  | TextureViewDimension.D2Array =>
      if v.multisampled = true then
        BuildResult.ok (mk (DsvData.tex2DMSArray v.array_layer_base
          v.array_layer_count) DsvDim.texture2DMSArray)
      else
        BuildResult.ok (mk (DsvData.tex2DArray v.mip_level_base
          v.array_layer_base v.array_layer_count) DsvDim.texture2DArray)
  | TextureViewDimension.D3 =>
      BuildResult.panicked PanicMsg.unableToViewTextureAsCubeOr3dRTV
  | TextureViewDimension.Cube =>
      BuildResult.panicked PanicMsg.unableToViewTextureAsCubeOr3dRTV
  | TextureViewDimension.CubeArray =>
      BuildResult.panicked PanicMsg.unableToViewTextureAsCubeOr3dRTV

/-- Embeds `crate::SurfaceError` as used by the swapchain code. -/
inductive SurfaceError
  | Lost
  | Outdated
  | Device (err : DeviceError)
  | Other
deriving DecidableEq, Repr

/-- Embeds `wgt::PresentMode` variants matched by `Queue::present`. -/
inductive PresentMode
  | Immediate
  | Fifo
  | Mailbox
deriving DecidableEq, Repr

/-- Embeds `Threading::WAIT_OBJECT_0`. -/
def WAIT_OBJECT_0 : Nat := 0

/-- Embeds `Threading::WAIT_ABANDONED`. -/
def WAIT_ABANDONED : Nat := 0x80

/-- Embeds `Foundation::WAIT_TIMEOUT`. -/
def WAIT_TIMEOUT : Nat := 0x102

/-- Embeds `Foundation::WAIT_FAILED` (as a `u32`). -/
def WAIT_FAILED : Nat := 0xFFFFFFFF

/-- Embeds `struct SwapChain` from `mod.rs`: the native handle and the
frame-latency waitable are external, so they are not part of the state;
the resources are opaque identifiers and `acquired_count` a `usize`. -/
structure SwapChain where
  resources : List Nat
  acquired_count : Nat
  present_mode : PresentMode
  format : Nat
  size : Extent3d
deriving DecidableEq, Repr

/-- Embeds `SwapChain::wait` from `mod.rs`.  The result of the native
`WaitForSingleObject` call is an environment input `hr`. -/
def SwapChain.wait (hr : Nat) : Except SurfaceError Bool :=
  if hr = WAIT_ABANDONED ∨ hr = WAIT_FAILED then
    Except.error SurfaceError.Lost
  else if hr = WAIT_OBJECT_0 then
    Except.ok true
  else if hr = WAIT_TIMEOUT then
    Except.ok false
  else
    Except.error SurfaceError.Lost

/-- Embeds `crate::AcquiredSurfaceTexture`. -/
structure AcquiredSurfaceTexture where
  texture : Texture
  suboptimal : Bool
deriving DecidableEq, Repr

/-- Embeds `Surface::acquire_texture` from `mod.rs` on a configured
surface.  Environment inputs: `waitHr`, the status returned by the
frame-latency wait, and `baseIndex`, the native
`GetCurrentBackBufferIndex()`.  The state change is returned alongside
the result.  Note the source applies `?` to `sc.wait(timeout_ms)` and
discards the `Ok` payload, so an `Ok(false)` timeout falls through to
the acquisition path.  `sc.resources[index]` is total here via `getD`;
in the source `index < resources.len()` whenever the list is nonempty. -/
def Surface.acquire_texture (sc : SwapChain) (waitHr : Nat) (baseIndex : Nat) :
    Except SurfaceError (SwapChain × Option AcquiredSurfaceTexture) :=
  match SwapChain.wait waitHr with
  | Except.error e => Except.error e
  | Except.ok _ =>
      Except.ok
        ({ sc with acquired_count := usizeAdd1 sc.acquired_count },
         some { texture := { resource := sc.resources.getD
                               ((baseIndex + sc.acquired_count) %
                                 sc.resources.length) 0
                             format := sc.format
                             dimension := TextureDimension.D2
                             size := sc.size
                             mip_level_count := 1
                             sample_count := 1 }
                suboptimal := false })

/-- Embeds `Surface::discard_texture` from `mod.rs`:
`sc.acquired_count -= 1` with wrapping `usize` semantics. -/
def Surface.discard_texture (sc : SwapChain) : SwapChain :=
  { sc with acquired_count := usizeSub1 sc.acquired_count }

/-- Embeds `DXGI_PRESENT_ALLOW_TEARING`. -/
def DXGI_PRESENT_ALLOW_TEARING : Nat := 0x200

/-- Embeds `Queue::present` from `mod.rs`: decrement `acquired_count`
and compute the native `Present(interval, flags)` arguments from the
present mode; the pair is returned alongside the new state. -/
def Queue.present (sc : SwapChain) : SwapChain × (Nat × Nat) :=
  let sc2 := { sc with acquired_count := usizeSub1 sc.acquired_count }
  let pair :=
    match sc.present_mode with
    | PresentMode.Immediate => (0, DXGI_PRESENT_ALLOW_TEARING)
    | PresentMode.Fifo => (1, 0)
    | PresentMode.Mailbox => (1, 0)
  (sc2, pair)

/-- Advances a swapchain by one `acquire_texture` call, keeping the
state unchanged when the call errors; a trace-building helper. -/
def stepAcquire (sc : SwapChain) (waitHr : Nat) (baseIndex : Nat) : SwapChain :=
  match Surface.acquire_texture sc waitHr baseIndex with
  | Except.ok (sc2, _) => sc2
  | Except.error _ => sc

/-- Embeds `struct PipelineLayoutShared` from `mod.rs`; the native
root-signature pointer, the identity of a layout, is an opaque `Nat`. -/
structure PipelineLayoutShared where
  signature : Nat
  total_root_elements : Nat
  special_constants_root_index : Option Nat
deriving DecidableEq, Repr

/-- Embeds `enum BufferViewKind` from `mod.rs`. -/
inductive BufferViewKind
  | Constant
  | ShaderResource
  | UnorderedAccess
deriving DecidableEq, Repr

/-- Embeds `enum RootElement` from `mod.rs`; descriptor handles and
GPU addresses are opaque `Nat`s, `base_vertex` an `i32` as `Int`. -/
inductive RootElement
  | Empty
  | SpecialConstantBuffer (base_vertex : Int) (base_instance other : Nat)
  | Table (descriptor : Nat)
  | DynamicOffsetBuffer (kind : BufferViewKind) (address : Nat)
deriving DecidableEq, Repr

/-- Embeds `enum PassKind` from `mod.rs`. -/
inductive PassKind
  | Render
  | Compute
  | Transfer
deriving DecidableEq, Repr

/-- Embeds `struct PassState` from `mod.rs`.  The `resolves` list and
the native vertex-buffer view payloads are opaque to the modelled
operations and omitted; `dirty_root_elements` is the `u64` bitmask. -/
structure PassState where
  has_label : Bool
  layout : PipelineLayoutShared
  root_elements : List RootElement
  dirty_root_elements : Nat
  dirty_vertex_buffers : Nat
  kind : PassKind
deriving DecidableEq, Repr

/-- Embeds `PassState::new` from `mod.rs`: a null layout, 64 `Empty`
root elements, all-clean masks, `Transfer` kind. -/
def PassState.new : PassState :=
  { has_label := false
    layout := { signature := 0
                total_root_elements := 0
                special_constants_root_index := none }
    root_elements := List.replicate MAX_ROOT_ELEMENTS RootElement.Empty
    dirty_root_elements := 0
    dirty_vertex_buffers := 0
    kind := PassKind.Transfer }

/-- Modelled from the spec: the root-binding state machine's
`set_pipeline_layout` lives in `dx12/command.rs`, which is not among
the provided sources.  Per the spec, if the new layout differs by
identity (the native root-signature handle) from the session's current
layout, mark dirty every slot index in
`[0, new_layout.total_root_elements)` and store the new layout;
otherwise do nothing. -/
def set_pipeline_layout (p : PassState) (new_layout : PipelineLayoutShared) :
    PassState :=
  if new_layout.signature = p.layout.signature then
    p
  else
    { p with
      layout := new_layout
      dirty_root_elements :=
        p.dirty_root_elements ||| (2 ^ new_layout.total_root_elements - 1) }

/-- Modelled from the spec: the classification of a bind-group-layout
entry used by the Root Signature Builder of `device.rs`, which is not
among the provided sources.  Buffers carry their view kind and whether
they use a dynamic offset. -/
inductive EntryType
  | buffer (kind : BufferViewKind) (has_dynamic_offset : Bool)
  | texture
  | sampler
deriving DecidableEq, Repr

/-- Modelled from the spec: an entry is view-table-eligible when it is
a fixed-offset texture or a non-dynamic buffer. -/
def entryViewTableEligible : EntryType → Bool
  | EntryType.buffer _ dyn => !dyn
  | EntryType.texture => true
  | EntryType.sampler => false

/-- Modelled from the spec: sampler entries go to the sampler table. -/
def entryIsSampler : EntryType → Bool
  | EntryType.sampler => true
  | _ => false

/-- Modelled from the spec: a dynamic-offset buffer contributes one
root slot of its recorded view kind. -/
def entryDynamicKind : EntryType → Option BufferViewKind
  | EntryType.buffer kind true => some kind
  | _ => none

/-- Modelled from the spec: the dynamic-buffer view kinds of a group,
in traversal order. -/
def groupDynamicKinds (g : List EntryType) : List BufferViewKind :=
  g.filterMap entryDynamicKind

/-- Modelled from the spec: root slots demanded by one bind-group
layout — one for a view table if any view-table-eligible entry exists,
one for a sampler table if any sampler exists, and one per
dynamic-offset buffer. -/
def groupSlotDemand (g : List EntryType) : Nat :=
  (if g.any entryViewTableEligible then 1 else 0) +
  (if g.any entryIsSampler then 1 else 0) +
  (groupDynamicKinds g).length

/-- Modelled from the spec: total root slots demanded by an ordered
list of bind-group layouts, plus one leading slot when the
base-vertex/base-instance emulation feature is enabled. -/
def totalSlotDemand (special_constants : Bool) (groups : List (List EntryType)) :
    Nat :=
  (if special_constants then 1 else 0) + (groups.map groupSlotDemand).sum

/-- Modelled from the spec: `BindGroupInfo` as recorded by the Root
Signature Builder. -/
structure BindGroupInfo where
  base_root_index : Nat
  has_view_table : Bool
  has_sampler_table : Bool
  dynamic_buffers : List BufferViewKind
deriving DecidableEq, Repr

/-- Modelled from the spec: per-group infos with running base root
indices, starting at `start`. -/
def buildInfos (start : Nat) : List (List EntryType) → List BindGroupInfo
  | [] => []
  | g :: rest =>
      { base_root_index := start
        has_view_table := g.any entryViewTableEligible
        has_sampler_table := g.any entryIsSampler
        dynamic_buffers := groupDynamicKinds g } ::
      buildInfos (start + groupSlotDemand g) rest

/-- Modelled from the spec: the capacity failure of pipeline-layout
construction ("root-signature capacity exceeded", an
`InvalidArgument`-class error). -/
inductive LayoutBuildError
  | capacityExceeded
deriving DecidableEq, Repr

/-- Modelled from the spec: the result of pipeline-layout
construction, with the parts of `PipelineLayout` the claims concern. -/
structure BuiltPipelineLayout where
  total_root_elements : Nat
  special_constants_root_index : Option Nat
  bind_group_infos : List BindGroupInfo
deriving DecidableEq, Repr

/-- Modelled from the spec: `Device::create_pipeline_layout` lives in
`dx12/device.rs`, which is not among the provided sources.  Per the
spec, walk the bind-group layouts in slot order, reserve slots as in
`groupSlotDemand` plus the optional leading special-constants slot,
and fail with a capacity error when the demand exceeds the fixed
64-slot budget, never truncating. -/
def create_pipeline_layout (special_constants : Bool)
    (groups : List (List EntryType)) :
    Except LayoutBuildError BuiltPipelineLayout :=
  let total := totalSlotDemand special_constants groups
  if total > MAX_ROOT_ELEMENTS then
    Except.error LayoutBuildError.capacityExceeded
  else
    Except.ok
      { total_root_elements := total
        special_constants_root_index :=
          if special_constants then some 0 else none
        bind_group_infos :=
          buildInfos (if special_constants then 1 else 0) groups }

/-- Concrete descriptor used to exercise the Cube rejection path. -/
def viewCubeEx : ViewDescriptor :=
  { dimension := TextureViewDimension.Cube
    format := NativeFormat.withDepth 2
    format_nodepth := NativeFormat.noDepth 2
    multisampled := false
    array_layer_base := 0
    array_layer_count := 6
    mip_level_base := 0
    mip_level_count := 1 }

/-- Concrete descriptor used to exercise the 3D DSV rejection path. -/
def view3dEx : ViewDescriptor :=
  { dimension := TextureViewDimension.D3
    format := NativeFormat.withDepth 2
    format_nodepth := NativeFormat.noDepth 2
    multisampled := false
    array_layer_base := 0
    array_layer_count := 1
    mip_level_base := 0
    mip_level_count := 1 }

/-- Concrete cube-array descriptor for the amended-claim witness. -/
def viewCubeArrayEx : ViewDescriptor :=
  { viewCubeEx with dimension := TextureViewDimension.CubeArray }

/-- C3 counterexample: at these concrete inputs, requesting a Cube
dimension for a UAV or RTV and a 3D dimension for a DSV makes the
construction functions panic; the outcome is a Rust panic, not an
`InvalidArgument` error value surfaced to the caller (the functions
have no error channel at all), refuting the claim as stated. -/
theorem cube_view_failure_is_panic :
    viewCubeEx.to_uav =
      BuildResult.panicked PanicMsg.unableToViewTextureAsCubeUAV ∧
    viewCubeEx.to_rtv =
      BuildResult.panicked PanicMsg.unableToViewTextureAsCubeRTV ∧
    view3dEx.to_dsv { depth := false, stencil := false } =
      BuildResult.panicked PanicMsg.unableToViewTextureAsCubeOr3dRTV :=
  ⟨rfl, rfl, rfl⟩

/-- C3 amended: constructing a UAV or RTV with dimension Cube or
CubeArray always panics (messages "Unable to view texture as cube
UAV" / "... cube RTV"), and constructing a DSV with dimension 3D
always panics ("Unable to view texture as cube or 3D RTV"); the
failure is a panic, not an error returned to the caller. -/
theorem cube_and_3d_views_panic (v w : ViewDescriptor) (ro : FormatAspects)
    (hv : v.dimension = TextureViewDimension.Cube ∨
          v.dimension = TextureViewDimension.CubeArray)
    (hw : w.dimension = TextureViewDimension.D3) :
    v.to_uav = BuildResult.panicked PanicMsg.unableToViewTextureAsCubeUAV ∧
    v.to_rtv = BuildResult.panicked PanicMsg.unableToViewTextureAsCubeRTV ∧
    w.to_dsv ro = BuildResult.panicked PanicMsg.unableToViewTextureAsCubeOr3dRTV := by
  rcases hv with h | h <;>
    exact ⟨by simp [ViewDescriptor.to_uav, h],
           by simp [ViewDescriptor.to_rtv, h],
           by simp [ViewDescriptor.to_dsv, hw]⟩

/-- C3 witness: the amended theorem applied at concrete inputs. -/
theorem cube_and_3d_views_panic_witness :
    viewCubeArrayEx.to_uav =
      BuildResult.panicked PanicMsg.unableToViewTextureAsCubeUAV ∧
    viewCubeArrayEx.to_rtv =
      BuildResult.panicked PanicMsg.unableToViewTextureAsCubeRTV ∧
    view3dEx.to_dsv { depth := true, stencil := false } =
      BuildResult.panicked PanicMsg.unableToViewTextureAsCubeOr3dRTV :=
  cube_and_3d_views_panic viewCubeArrayEx view3dEx
    { depth := true, stencil := false } (Or.inr rfl) rfl

/-- C7: a view descriptor with dimension 2D, not multisampled and
array base 0 yields the plain non-array 2D variant for SRV, UAV, RTV
and DSV construction, with a result that does not depend on
`array_layer_count`. -/
theorem plain_2d_view_ignores_array_count (v : ViewDescriptor)
    (ro : FormatAspects) (hd : v.dimension = TextureViewDimension.D2)
    (hm : v.multisampled = false) (hb : v.array_layer_base = 0) :
    v.to_srv =
      { Format := v.format_nodepth
        ViewDimension := SrvDim.texture2D
        Shader4ComponentMapping := D3D12_DEFAULT_SHADER_4_COMPONENT_MAPPING
        Anonymous := SrvData.tex2D v.mip_level_base v.mip_level_count 0 } ∧
    v.to_uav = BuildResult.ok
      { Format := v.format_nodepth
        ViewDimension := UavDim.texture2D
        Anonymous := UavData.tex2D v.mip_level_base 0 } ∧
    v.to_rtv = BuildResult.ok
      { Format := v.format
        ViewDimension := RtvDim.texture2D
        Anonymous := RtvData.tex2D v.mip_level_base 0 } ∧
    v.to_dsv ro = BuildResult.ok
      { Format := v.format
        ViewDimension := DsvDim.texture2D
        Flags := dsv_flags ro
        Anonymous := DsvData.tex2D v.mip_level_base } := by
  refine ⟨?_, ?_, ?_, ?_⟩ <;>
    simp [ViewDescriptor.to_srv, ViewDescriptor.to_uav,
      ViewDescriptor.to_rtv, ViewDescriptor.to_dsv, hd, hm, hb]

/-- Concrete 2D descriptor with a nontrivial array count. -/
def view2dEx : ViewDescriptor :=
  { dimension := TextureViewDimension.D2
    format := NativeFormat.withDepth 5
    format_nodepth := NativeFormat.noDepth 5
    multisampled := false
    array_layer_base := 0
    array_layer_count := 4
    mip_level_base := 1
    mip_level_count := 2 }

/-- C7 witness: the theorem applied at a concrete descriptor whose
`array_layer_count` is 4, still yielding the plain 2D variants. -/
theorem plain_2d_view_ignores_array_count_witness :
    view2dEx.to_srv =
      { Format := NativeFormat.noDepth 5
        ViewDimension := SrvDim.texture2D
        Shader4ComponentMapping := D3D12_DEFAULT_SHADER_4_COMPONENT_MAPPING
        Anonymous := SrvData.tex2D 1 2 0 } :=
  (plain_2d_view_ignores_array_count view2dEx
    { depth := false, stencil := false } rfl rfl rfl).1

/-- Concrete multisampled 2D-array descriptor with array base 0. -/
def view2dArrayMsEx : ViewDescriptor :=
  { dimension := TextureViewDimension.D2Array
    format := NativeFormat.withDepth 3
    format_nodepth := NativeFormat.noDepth 3
    multisampled := true
    array_layer_base := 0
    array_layer_count := 6
    mip_level_base := 0
    mip_level_count := 1 }

/-- C8 counterexample: at this concrete descriptor, dimension 2D-array
with multisampling and array base 0 yields the multisampled-ARRAY
variant (`TEXTURE2DMSARRAY`), not the plain `TEXTURE2DMS` variant the
claim promises, for SRV, RTV and DSV alike. -/
theorem msaa_2darray_yields_array_variant :
    view2dArrayMsEx.dimension = TextureViewDimension.D2Array ∧
    view2dArrayMsEx.multisampled = true ∧
    view2dArrayMsEx.array_layer_base = 0 ∧
    view2dArrayMsEx.to_srv.ViewDimension = SrvDim.texture2DMSArray ∧
    view2dArrayMsEx.to_srv.ViewDimension ≠ SrvDim.texture2DMS ∧
    view2dArrayMsEx.to_rtv = BuildResult.ok
      { Format := NativeFormat.withDepth 3
        ViewDimension := RtvDim.texture2DMSArray
        Anonymous := RtvData.tex2DMSArray 0 6 } ∧
    view2dArrayMsEx.to_dsv { depth := false, stencil := false } = BuildResult.ok
      { Format := NativeFormat.withDepth 3
        ViewDimension := DsvDim.texture2DMSArray
        Flags := 0
        Anonymous := DsvData.tex2DMSArray 0 6 } :=
  ⟨rfl, rfl, rfl, rfl, by decide, rfl, rfl⟩

/-- C8 amended: a view descriptor with dimension 2D (not 2D-array),
multisampled and array base 0 yields the plain multisampled
`TEXTURE2DMS` variant for SRV, RTV and DSV construction. -/
theorem plain_msaa_2d_view_for_d2 (v : ViewDescriptor) (ro : FormatAspects)
    (hd : v.dimension = TextureViewDimension.D2)
    (hm : v.multisampled = true) (hb : v.array_layer_base = 0) :
    v.to_srv =
      { Format := v.format_nodepth
        ViewDimension := SrvDim.texture2DMS
        Shader4ComponentMapping := D3D12_DEFAULT_SHADER_4_COMPONENT_MAPPING
        Anonymous := SrvData.tex2DMS } ∧
    v.to_rtv = BuildResult.ok
      { Format := v.format
        ViewDimension := RtvDim.texture2DMS
        Anonymous := RtvData.tex2DMS } ∧
    v.to_dsv ro = BuildResult.ok
      { Format := v.format
        ViewDimension := DsvDim.texture2DMS
        Flags := dsv_flags ro
        Anonymous := DsvData.tex2DMS } := by
  refine ⟨?_, ?_, ?_⟩ <;>
    simp [ViewDescriptor.to_srv, ViewDescriptor.to_rtv,
      ViewDescriptor.to_dsv, hd, hm, hb]

/-- Concrete multisampled plain-2D descriptor. -/
def view2dMsEx : ViewDescriptor :=
  { view2dArrayMsEx with dimension := TextureViewDimension.D2 }

/-- C8 witness: the amended theorem applied at a concrete descriptor. -/
theorem plain_msaa_2d_view_for_d2_witness :
    view2dMsEx.to_srv =
      { Format := NativeFormat.noDepth 3
        ViewDimension := SrvDim.texture2DMS
        Shader4ComponentMapping := D3D12_DEFAULT_SHADER_4_COMPONENT_MAPPING
        Anonymous := SrvData.tex2DMS } :=
  (plain_msaa_2d_view_for_d2 view2dMsEx
    { depth := false, stencil := false } rfl rfl rfl).1

/-- C9: for dimension CubeArray, or Cube with a nonzero array base,
SRV construction yields the cube-array variant whose first face is the
array base and whose cube count is `array_layer_count / 6`, except
that the unbounded `!0` sentinel is propagated unchanged; and the
sentinel itself arises from an absent (`None`) array count in
`to_internal`. -/
theorem cube_array_srv_sentinel (v : ViewDescriptor)
    (s : TextureViewDescriptor) (t : Texture)
    (hd : v.dimension = TextureViewDimension.CubeArray ∨
          (v.dimension = TextureViewDimension.Cube ∧ v.array_layer_base ≠ 0))
    (hs : s.range.array_layer_count = none) :
    (v.array_layer_count = U32_MAX →
      v.to_srv =
        { Format := v.format_nodepth
          ViewDimension := SrvDim.textureCubeArray
          Shader4ComponentMapping := D3D12_DEFAULT_SHADER_4_COMPONENT_MAPPING
          Anonymous := SrvData.texCubeArray v.mip_level_base
            v.mip_level_count v.array_layer_base U32_MAX }) ∧
    (v.array_layer_count ≠ U32_MAX →
      v.to_srv =
        { Format := v.format_nodepth
          ViewDimension := SrvDim.textureCubeArray
          Shader4ComponentMapping := D3D12_DEFAULT_SHADER_4_COMPONENT_MAPPING
          Anonymous := SrvData.texCubeArray v.mip_level_base
            v.mip_level_count v.array_layer_base
            (v.array_layer_count / 6) }) ∧
    (s.to_internal t).array_layer_count = U32_MAX := by
  refine ⟨?_, ?_, ?_⟩
  · intro hcount
    rcases hd with h | ⟨h, hb⟩
    · simp [ViewDescriptor.to_srv, h, hcount]
    · simp [ViewDescriptor.to_srv, h, hb, hcount]
  · intro hcount
    rcases hd with h | ⟨h, hb⟩
    · simp [ViewDescriptor.to_srv, h, hcount]
    · simp [ViewDescriptor.to_srv, h, hb, hcount]
  · simp [TextureViewDescriptor.to_internal, hs]

/-- Concrete cube-array descriptor carrying the unbounded sentinel. -/
def viewCubeArraySentinelEx : ViewDescriptor :=
  { dimension := TextureViewDimension.CubeArray
    format := NativeFormat.withDepth 1
    format_nodepth := NativeFormat.noDepth 1
    multisampled := false
    array_layer_base := 6
    array_layer_count := U32_MAX
    mip_level_base := 0
    mip_level_count := 1 }

/-- Concrete view request with an absent array count. -/
def tvdNoCountEx : TextureViewDescriptor :=
  { dimension := TextureViewDimension.CubeArray
    format := 1
    range := { base_mip_level := 0
               mip_level_count := some 1
               base_array_layer := 6
               array_layer_count := none } }

/-- Concrete texture backing `tvdNoCountEx`. -/
def texCubeEx : Texture :=
  { resource := 0
    format := 1
    dimension := TextureDimension.D2
    size := { width := 32, height := 32, depth_or_array_layers := 12 }
    mip_level_count := 1
    sample_count := 1 }

/-- C9 witness: the theorem applied at a concrete cube-array
descriptor with the sentinel count, and at a concrete view request
with an absent count. -/
theorem cube_array_srv_sentinel_witness :
    viewCubeArraySentinelEx.to_srv =
      { Format := NativeFormat.noDepth 1
        ViewDimension := SrvDim.textureCubeArray
        Shader4ComponentMapping := D3D12_DEFAULT_SHADER_4_COMPONENT_MAPPING
        Anonymous := SrvData.texCubeArray 0 1 6 U32_MAX } ∧
    (tvdNoCountEx.to_internal texCubeEx).array_layer_count = U32_MAX :=
  ⟨(cube_array_srv_sentinel viewCubeArraySentinelEx tvdNoCountEx texCubeEx
      (Or.inl rfl) rfl).1 rfl,
   (cube_array_srv_sentinel viewCubeArraySentinelEx tvdNoCountEx texCubeEx
      (Or.inl rfl) rfl).2.2⟩

/-- C10: the device-error mapping returns `OutOfMemory` exactly when
the native result code is `E_OUTOFMEMORY` (`0x8007000E`) and `Lost`
for every other code. -/
theorem map_win_error_oom_iff (hr : Nat) :
    (map_win_error_to_device_error hr = DeviceError.OutOfMemory ↔
      hr = 0x8007000E) ∧
    (hr ≠ 0x8007000E → map_win_error_to_device_error hr = DeviceError.Lost) := by
  constructor
  · by_cases h : hr = 0x8007000E <;>
      simp [map_win_error_to_device_error, ERR_OUTOFMEMORY,
        WinError.mk.injEq, h]
  · intro h
    simp [map_win_error_to_device_error, ERR_OUTOFMEMORY,
      WinError.mk.injEq, h]

/-- C10 witness: the theorem applied at the concrete failing code
`E_NOTIMPL`, which maps to `Lost`. -/
theorem map_win_error_oom_iff_witness :
    map_win_error_to_device_error 0x80004001 = DeviceError.Lost :=
  (map_win_error_oom_iff 0x80004001).2 (by decide)

/-- C6: every `acquire_texture` call that returns `Ok` increments
`acquired_count` by exactly one (with `usize` wrap-around) and returns
the image at index `(current back-buffer index + old acquired_count)
mod image_count`. -/
theorem acquire_texture_index_and_increment (sc sc2 : SwapChain)
    (waitHr baseIndex : Nat) (r : Option AcquiredSurfaceTexture)
    (h : Surface.acquire_texture sc waitHr baseIndex = Except.ok (sc2, r)) :
    sc2.acquired_count = (sc.acquired_count + 1) % USIZE_MOD ∧
    r = some
      { texture :=
          { resource := sc.resources.getD
              ((baseIndex + sc.acquired_count) % sc.resources.length) 0
            format := sc.format
            dimension := TextureDimension.D2
            size := sc.size
            mip_level_count := 1
            sample_count := 1 }
        suboptimal := false } := by
  unfold Surface.acquire_texture at h
  split at h
  · exact absurd h (by simp)
  · simp only [Except.ok.injEq, Prod.mk.injEq] at h
    exact ⟨by rw [← h.1]; rfl, h.2.symm⟩

/-- Concrete configured swapchain with three images, one acquired. -/
def scThreeEx : SwapChain :=
  { resources := [10, 11, 12]
    acquired_count := 1
    present_mode := PresentMode.Fifo
    format := 0
    size := { width := 4, height := 4, depth_or_array_layers := 1 } }

/-- C6 witness: the theorem applied to a successful acquisition on a
three-image swapchain with back-buffer index 1 and one image already
acquired, yielding image index `(1 + 1) % 3 = 2`. -/
theorem acquire_texture_index_and_increment_witness :
    ({ scThreeEx with acquired_count := 2 } : SwapChain).acquired_count =
      (scThreeEx.acquired_count + 1) % USIZE_MOD ∧
    (some { texture :=
              { resource := 12
                format := 0
                dimension := TextureDimension.D2
                size := { width := 4, height := 4, depth_or_array_layers := 1 }
                mip_level_count := 1
                sample_count := 1 }
            suboptimal := false } :
        Option AcquiredSurfaceTexture) = some
      { texture :=
          { resource := scThreeEx.resources.getD
              ((1 + scThreeEx.acquired_count) % scThreeEx.resources.length) 0
            format := scThreeEx.format
            dimension := TextureDimension.D2
            size := scThreeEx.size
            mip_level_count := 1
            sample_count := 1 }
        suboptimal := false } :=
  acquire_texture_index_and_increment scThreeEx
    { scThreeEx with acquired_count := 2 } WAIT_OBJECT_0 1 _ rfl

/-- Concrete one-image configured swapchain in its initial state. -/
def scOneEx : SwapChain :=
  { resources := [7]
    acquired_count := 0
    present_mode := PresentMode.Fifo
    format := 0
    size := { width := 1, height := 1, depth_or_array_layers := 1 } }

/-- C4: the frame-latency wait reports a timeout as `Ok(false)`, yet
`acquire_texture` discards that payload and proceeds: at this concrete
input it returns an acquired texture and increments `acquired_count`,
instead of the "not ready" outcome with the count unchanged that the
claim requires. -/
theorem acquire_texture_on_timeout_still_acquires :
    SwapChain.wait WAIT_TIMEOUT = Except.ok false ∧
    Surface.acquire_texture scOneEx WAIT_TIMEOUT 0 =
      Except.ok ({ scOneEx with acquired_count := 1 },
        some { texture :=
                 { resource := 7
                   format := 0
                   dimension := TextureDimension.D2
                   size := { width := 1, height := 1, depth_or_array_layers := 1 }
                   mip_level_count := 1
                   sample_count := 1 }
               suboptimal := false }) :=
  ⟨rfl, rfl⟩

/-- Concrete one-image configured swapchain for the C5 trace. -/
def scOneEx2 : SwapChain :=
  { resources := [9]
    acquired_count := 0
    present_mode := PresentMode.Fifo
    format := 0
    size := { width := 1, height := 1, depth_or_array_layers := 1 } }

/-- C5: a reachable trace violating the claimed invariant.  On a
swapchain configured with one image, a successful acquire followed by
an acquire whose latency wait times out leaves `acquired_count = 2`,
exceeding `resources.length = 1`; and `discard_texture` without a
prior acquire wraps `acquired_count` to `2^64 - 1` silently — there is
no underflow guard. -/
theorem swapchain_acquired_count_bound_violated :
    (stepAcquire (stepAcquire scOneEx2 WAIT_OBJECT_0 0) WAIT_TIMEOUT 0).acquired_count
      = 2 ∧
    scOneEx2.resources.length = 1 ∧
    (Surface.discard_texture scOneEx2).acquired_count = USIZE_MOD - 1 :=
  ⟨rfl, rfl, rfl⟩

/-- C1: storing a layout with a different identity (native
root-signature handle) marks dirty every root slot below the new
layout's `total_root_elements` and stores the layout; a second call
with the same layout is a no-op, so it marks no slot dirty that was
already clean. -/
theorem set_pipeline_layout_dirties_all (p : PassState)
    (L : PipelineLayoutShared) :
    (L.signature ≠ p.layout.signature →
      (set_pipeline_layout p L).layout = L ∧
      ∀ i, i < L.total_root_elements →
        ((set_pipeline_layout p L).dirty_root_elements).testBit i = true) ∧
    set_pipeline_layout (set_pipeline_layout p L) L = set_pipeline_layout p L := by
  constructor
  · intro hne
    rw [set_pipeline_layout, if_neg hne]
    refine ⟨rfl, fun i hi => ?_⟩
    simp [Nat.testBit_or, Nat.testBit_two_pow_sub_one, hi]
  · by_cases h : L.signature = p.layout.signature <;>
      simp [set_pipeline_layout, h]

/-- Concrete pipeline layout with three root elements and an identity
differing from the null layout of a fresh pass. -/
def layoutThreeEx : PipelineLayoutShared :=
  { signature := 1
    total_root_elements := 3
    special_constants_root_index := none }

/-- C1 witness: the theorem applied to a fresh pass state and a
three-element layout of a new identity; slot 2 becomes dirty and the
repeated call changes nothing. -/
theorem set_pipeline_layout_dirties_all_witness :
    (set_pipeline_layout PassState.new layoutThreeEx).layout = layoutThreeEx ∧
    ((set_pipeline_layout PassState.new layoutThreeEx).dirty_root_elements).testBit 2
      = true ∧
    set_pipeline_layout (set_pipeline_layout PassState.new layoutThreeEx)
        layoutThreeEx =
      set_pipeline_layout PassState.new layoutThreeEx :=
  ⟨((set_pipeline_layout_dirties_all PassState.new layoutThreeEx).1 (by decide)).1,
   ((set_pipeline_layout_dirties_all PassState.new layoutThreeEx).1 (by decide)).2
     2 (by decide),
   (set_pipeline_layout_dirties_all PassState.new layoutThreeEx).2⟩

/-- C2: pipeline-layout construction fails with the capacity error
whenever the combined slot demand exceeds the 64-slot budget, and
every successfully constructed layout records exactly the demanded
(untruncated) `total_root_elements`, which is at most 64. -/
theorem create_pipeline_layout_capacity (special : Bool)
    (groups : List (List EntryType)) :
    (totalSlotDemand special groups > MAX_ROOT_ELEMENTS →
      create_pipeline_layout special groups =
        Except.error LayoutBuildError.capacityExceeded) ∧
    (∀ pl, create_pipeline_layout special groups = Except.ok pl →
      pl.total_root_elements = totalSlotDemand special groups ∧
      pl.total_root_elements ≤ MAX_ROOT_ELEMENTS) := by
  constructor
  · intro h
    rw [create_pipeline_layout, if_pos h]
  · intro pl h
    by_cases hc : totalSlotDemand special groups > MAX_ROOT_ELEMENTS
    · rw [create_pipeline_layout, if_pos hc] at h
      exact absurd h (by simp)
    · rw [create_pipeline_layout, if_neg hc] at h
      simp only [Except.ok.injEq] at h
      rw [← h]
      exact ⟨rfl, Nat.le_of_not_lt hc⟩

/-- Sixty-five bind-group layouts of one dynamic uniform buffer each,
demanding 65 root slots. -/
def groupsOver64Ex : List (List EntryType) :=
  List.replicate 65 [EntryType.buffer BufferViewKind.Constant true]

/-- C2 witness: the theorem applied to the 65-slot demand, which fails
with the capacity error. -/
theorem create_pipeline_layout_capacity_witness :
    create_pipeline_layout false groupsOver64Ex =
      Except.error LayoutBuildError.capacityExceeded :=
  (create_pipeline_layout_capacity false groupsOver64Ex).1 (by decide)

end Dx12
